import Mathlib

/-!
# lttng-ust: clock override, ipc namespace context, fork/execve wrappers, thread name

A shallow embedding of

* `liblttng-ust/lttng-clock.c` (the trace clock override),
* `liblttng-ust/lttng-context-ipc-ns.c` (the ipc namespace context field),
* `libinterfork/interfork.c` (the `fork` and `execve` wrappers),
* `liblttng-ust/compat.h` (`lttng_ust_setustprocname`),

and the properties proved about them.  C globals and thread-local variables are
fields of an explicit state, libc and kernel answers are arguments of the
functions, and calls that leave the program are recorded in a trace of events.
-/

namespace LttngUst

/-! ## errno values (Linux, `errno.h`) -/

def ENOMEM : Int := 12
def EBUSY : Int := 16
def EEXIST : Int := 17
def EINVAL : Int := 22
def ERANGE : Int := 34

/-! ## `lttng-clock.c` -/

/-- A C function pointer, as its address: `0` is `NULL`. -/
abbrev FnPtr := Nat

/-- The record `struct lttng_trace_clock`: five callbacks. -/
structure lttng_trace_clock_t where
  read64 : FnPtr
  freq : FnPtr
  uuid : FnPtr
  name : FnPtr
  description : FnPtr
deriving DecidableEq, Repr

/-- The values the global pointer `lttng_trace_clock` takes: `NULL`, or the
address of the static record `user_tc` (the only address ever stored in it). -/
inductive ClockPtr where
  | NULL
  | addr_user_tc
deriving DecidableEq, Repr

/-- The two globals of `lttng-clock.c` the setters and `enable` touch. -/
structure ClockState where
  lttng_trace_clock : ClockPtr
  user_tc : lttng_trace_clock_t
deriving DecidableEq, Repr

/-- Static storage is zero-initialised: no override, every callback `NULL`. -/
def clock_init : ClockState :=
  { lttng_trace_clock := ClockPtr.NULL,
    user_tc := { read64 := 0, freq := 0, uuid := 0, name := 0, description := 0 } }

def lttng_ust_trace_clock_set_read64_cb (read64 : FnPtr) (s : ClockState) : Int × ClockState :=
  if s.lttng_trace_clock ≠ ClockPtr.NULL then (-EBUSY, s)
  else (0, { s with user_tc := { s.user_tc with read64 := read64 } })

def lttng_ust_trace_clock_set_freq_cb (freq : FnPtr) (s : ClockState) : Int × ClockState :=
  if s.lttng_trace_clock ≠ ClockPtr.NULL then (-EBUSY, s)
  else (0, { s with user_tc := { s.user_tc with freq := freq } })

def lttng_ust_trace_clock_set_uuid_cb (uuid : FnPtr) (s : ClockState) : Int × ClockState :=
  if s.lttng_trace_clock ≠ ClockPtr.NULL then (-EBUSY, s)
  else (0, { s with user_tc := { s.user_tc with uuid := uuid } })

def lttng_ust_trace_clock_set_name_cb (name : FnPtr) (s : ClockState) : Int × ClockState :=
  if s.lttng_trace_clock ≠ ClockPtr.NULL then (-EBUSY, s)
  else (0, { s with user_tc := { s.user_tc with name := name } })

def lttng_ust_trace_clock_set_description_cb (description : FnPtr) (s : ClockState) :
    Int × ClockState :=
  if s.lttng_trace_clock ≠ ClockPtr.NULL then (-EBUSY, s)
  else (0, { s with user_tc := { s.user_tc with description := description } })

def lttng_ust_enable_trace_clock_override (s : ClockState) : Int × ClockState :=
  if s.lttng_trace_clock ≠ ClockPtr.NULL then (-EBUSY, s)
  else if s.user_tc.read64 = 0 then (-EINVAL, s)
  else if s.user_tc.freq = 0 then (-EINVAL, s)
  else if s.user_tc.name = 0 then (-EINVAL, s)
  else if s.user_tc.description = 0 then (-EINVAL, s)
  else (0, { s with lttng_trace_clock := ClockPtr.addr_user_tc })

/-- One call of the clock override interface. -/
inductive ClockOp where
  | set_read64 (cb : FnPtr)
  | set_freq (cb : FnPtr)
  | set_uuid (cb : FnPtr)
  | set_name (cb : FnPtr)
  | set_description (cb : FnPtr)
  | enable
deriving DecidableEq, Repr

/-- The call an operation stands for. -/
def ClockOp.run : ClockOp → ClockState → Int × ClockState
  | ClockOp.set_read64 cb => lttng_ust_trace_clock_set_read64_cb cb
  | ClockOp.set_freq cb => lttng_ust_trace_clock_set_freq_cb cb
  | ClockOp.set_uuid cb => lttng_ust_trace_clock_set_uuid_cb cb
  | ClockOp.set_name cb => lttng_ust_trace_clock_set_name_cb cb
  | ClockOp.set_description cb => lttng_ust_trace_clock_set_description_cb cb
  | ClockOp.enable => lttng_ust_enable_trace_clock_override

/-- Calls made one after the other: the return codes, in call order, and the
final state. -/
def run_clock_ops : List ClockOp → ClockState → List Int × ClockState
  | [], s => ([], s)
  | op :: ops, s =>
    let r := op.run s
    let rest := run_clock_ops ops r.2
    (r.1 :: rest.1, rest.2)

/-- What a reader of `lttng_trace_clock` gets: nothing when the pointer is
`NULL`, else the record it points to. -/
def published_clock (s : ClockState) : Option lttng_trace_clock_t :=
  match s.lttng_trace_clock with
  | ClockPtr.NULL => none
  | ClockPtr.addr_user_tc => some s.user_tc

/-- The invariant of the override: a published record has its four mandatory
callbacks. -/
def clock_inv (s : ClockState) : Prop :=
  s.lttng_trace_clock = ClockPtr.addr_user_tc →
    s.user_tc.read64 ≠ 0 ∧ s.user_tc.freq ≠ 0 ∧ s.user_tc.name ≠ 0 ∧ s.user_tc.description ≠ 0

/-- A configured, not yet enabled, clock: the four mandatory callbacks set. -/
def clock_configured : ClockState :=
  { lttng_trace_clock := ClockPtr.NULL,
    user_tc := { read64 := 101, freq := 102, uuid := 0, name := 104, description := 105 } }

/-- A clock with only `read64` and `freq` set: `name` and `description` miss. -/
def clock_half : ClockState :=
  { lttng_trace_clock := ClockPtr.NULL,
    user_tc := { read64 := 101, freq := 102, uuid := 0, name := 0, description := 0 } }

/-- A configuration script: a failed enable (two callbacks miss), null and
non-null setter calls, a successful enable, and a setter call after it. -/
def clock_script : List ClockOp :=
  [ClockOp.set_read64 101, ClockOp.set_freq 102, ClockOp.enable, ClockOp.set_name 0,
    ClockOp.set_name 104, ClockOp.set_description 105, ClockOp.set_read64 0,
    ClockOp.set_read64 101, ClockOp.enable, ClockOp.set_freq 0]

/-! ## `lttng-context-ipc-ns.c`: the cached ipc namespace inode -/

/-- An inode number, `ino_t`: an unsigned integer. -/
abbrev ino_t := Nat

/-- The value cached when the lookup fails; the comment in `get_ipc_ns` gives
it: "set the initial value to NS_INO_UNAVAILABLE (0)". -/
def NS_INO_UNAVAILABLE : ino_t := 0

/-- The constants `get_ipc_ns` takes from `ns.h`, a header that is not among the
sources: they are arguments of the embedding. -/
structure NsConstants where
  NS_INO_UNINITIALIZED : ino_t
  LTTNG_PROC_NS_PATH_MAX : Nat
deriving DecidableEq, Repr

/-- What the kernel answers during one call of `get_ipc_ns`: `stat path` is
`some st_ino` when `stat(2)` returns 0 and `none` when it fails;
`lttng_gettid` is the calling thread's id. -/
structure ProcFs where
  stat : String → Option ino_t
  lttng_gettid : Int

/-- One thread: its thread-local `cached_ipc_ns`, and the paths it has called
`stat(2)` on, oldest first. -/
structure IpcNsThread where
  cached_ipc_ns : ino_t
  stat_calls : List String
deriving DecidableEq, Repr

/-- A new thread: `DEFINE_URCU_TLS_INIT(ino_t, cached_ipc_ns, NS_INO_UNINITIALIZED)`. -/
def ipc_ns_thread_init (c : NsConstants) : IpcNsThread :=
  { cached_ipc_ns := c.NS_INO_UNINITIALIZED, stat_calls := [] }

/-- The libc `snprintf(buf, size, ...)` for a format that expands to `text`:
the return value is the length of `text`, and the buffer gets its first
`size - 1` characters (and the terminating NUL). -/
def snprintf (size : Nat) (text : String) : Int × String :=
  ((text.length : Int), String.mk (text.data.take (size - 1)))

/-- The expansion of `"/proc/self/task/%d/ns/ipc"` at a thread id. -/
def proc_self_task_ns_ipc (tid : Int) : String :=
  "/proc/self/task/" ++ toString tid ++ "/ns/ipc"

def get_ipc_ns (c : NsConstants) (k : ProcFs) (t : IpcNsThread) : ino_t × IpcNsThread :=
  let ipc_ns := t.cached_ipc_ns
  if ipc_ns ≠ c.NS_INO_UNINITIALIZED then (ipc_ns, t)
  else
    let t1 := { t with stat_calls := t.stat_calls ++ ["/proc/thread-self/ns/ipc"] }
    match k.stat "/proc/thread-self/ns/ipc" with
    | some st_ino => (st_ino, { t1 with cached_ipc_ns := st_ino })
    | none =>
      let r := snprintf c.LTTNG_PROC_NS_PATH_MAX (proc_self_task_ns_ipc k.lttng_gettid)
      if r.1 ≥ 0 then
        let t2 := { t1 with stat_calls := t1.stat_calls ++ [r.2] }
        match k.stat r.2 with
        | some st_ino => (st_ino, { t2 with cached_ipc_ns := st_ino })
        | none => (NS_INO_UNAVAILABLE, { t2 with cached_ipc_ns := NS_INO_UNAVAILABLE })
      else (NS_INO_UNAVAILABLE, { t1 with cached_ipc_ns := NS_INO_UNAVAILABLE })

def lttng_context_ipc_ns_reset (c : NsConstants) (t : IpcNsThread) : IpcNsThread :=
  { t with cached_ipc_ns := c.NS_INO_UNINITIALIZED }

/-- Reads of the cache one after the other, the kernel answering each with its
own `ProcFs`: the values returned, in call order, and the final thread state. -/
def get_ipc_ns_repeat (c : NsConstants) : List ProcFs → IpcNsThread → List ino_t × IpcNsThread
  | [], t => ([], t)
  | k :: ks, t =>
    let r := get_ipc_ns c k t
    let rest := get_ipc_ns_repeat c ks r.2
    (r.1 :: rest.1, rest.2)

/-- The number of namespace lookups a thread has made. A lookup is one pass
through the populating branch of `get_ipc_ns`; it starts with one `stat` of
`/proc/thread-self/ns/ipc`, followed by one `stat` of the per-thread path when
the first fails. -/
def ipc_ns_queries (t : IpcNsThread) : Nat :=
  t.stat_calls.count "/proc/thread-self/ns/ipc"

/-- The constants of `ns.h` as the lttng-ust tree has them. -/
def ns_h : NsConstants := { NS_INO_UNINITIALIZED := 1, LTTNG_PROC_NS_PATH_MAX := 40 }

/-- A kernel whose `/proc/thread-self/ns/ipc` has the inode number `ino`. -/
def procfs_thread_self (ino : ino_t) : ProcFs :=
  { stat := fun path => if path = "/proc/thread-self/ns/ipc" then some ino else none,
    lttng_gettid := 1234 }

/-- A kernel older than v3.17: no `/proc/thread-self`, the per-thread path of
thread 1234 has the inode number `ino`. -/
def procfs_task_only (ino : ino_t) : ProcFs :=
  { stat := fun path => if path = "/proc/self/task/1234/ns/ipc" then some ino else none,
    lttng_gettid := 1234 }

/-- A kernel on which both lookups fail. -/
def procfs_none : ProcFs := { stat := fun _ => none, lttng_gettid := 1234 }

/-! ## `lttng-context-ipc-ns.c`: the size and record passes -/

/-- What the C implementation fixes for `ino_t`: `sizeof(ino_t)`,
`lttng_alignof(ino_t)` (both in bytes), `lttng_is_signed_type(ino_t)` and
`BYTE_ORDER`. -/
structure Target where
  sizeof_ino_t : Nat
  lttng_alignof_ino_t : Nat
  ino_t_is_signed : Bool
  BYTE_ORDER : Nat
deriving DecidableEq, Repr

def CHAR_BIT : Nat := 8

/-- Linux on x86-64: `ino_t` is an `unsigned long` of 8 bytes, aligned on 8,
little endian. -/
def x86_64 : Target :=
  { sizeof_ino_t := 8, lttng_alignof_ino_t := 8, ino_t_is_signed := false, BYTE_ORDER := 1234 }

/-- One `event_write`: `len` bytes, the object representation of `src`, stored
at the position `pos`. -/
structure RbWrite where
  pos : Nat
  len : Nat
  src : ino_t
deriving DecidableEq, Repr

/-- Modelled from the spec: `struct lttng_ust_lib_ring_buffer_ctx`, of the ring
buffer headers, which are not among the sources. Of the channel's context the
field passes use the write position `buf_offset`; `written` lists the writes
made through the context, oldest first. -/
structure lttng_ust_lib_ring_buffer_ctx where
  buf_offset : Nat
  written : List RbWrite
deriving DecidableEq, Repr

/-- Modelled from the spec: `lib_ring_buffer_align(align_drift, size_of_type)`,
of the ring buffer headers, which are not among the sources. It is the
channel's alignment primitive: the padding that takes the offset `align_drift`
to the alignment `size_of_type`, computed on `size_t` (64 bits) with the mask
of a power of two, `(size_of_type - align_drift) & (size_of_type - 1)`. -/
def lib_ring_buffer_align (align_drift size_of_type : Nat) : Nat :=
  (((size_of_type : Int) - (align_drift : Int)) % 2 ^ 64).toNat &&& (size_of_type - 1)

/-- Modelled from the spec: `lib_ring_buffer_align_ctx(ctx, alignment)`, of the
ring buffer headers, which are not among the sources: the channel's
`align(context, alignment)`, which moves the write position by the padding. -/
def lib_ring_buffer_align_ctx (ctx : lttng_ust_lib_ring_buffer_ctx) (alignment : Nat) :
    lttng_ust_lib_ring_buffer_ctx :=
  { ctx with buf_offset := ctx.buf_offset + lib_ring_buffer_align ctx.buf_offset alignment }

/-- Modelled from the spec: `chan->ops->event_write(ctx, src, len)`, an
operation of the channel, which is not among the sources: the channel's
`write(context, bytes, length)`, which stores `len` bytes at the write position
and moves it past them. -/
def event_write (ctx : lttng_ust_lib_ring_buffer_ctx) (src : ino_t) (len : Nat) :
    lttng_ust_lib_ring_buffer_ctx :=
  { buf_offset := ctx.buf_offset + len,
    written := ctx.written ++ [{ pos := ctx.buf_offset, len := len, src := src }] }

def ipc_ns_get_size (tg : Target) (offset : Nat) : Nat :=
  let size := 0
  let size := size + lib_ring_buffer_align offset tg.lttng_alignof_ino_t
  let size := size + tg.sizeof_ino_t
  size

def ipc_ns_record (tg : Target) (c : NsConstants) (k : ProcFs)
    (ctx : lttng_ust_lib_ring_buffer_ctx) (t : IpcNsThread) :
    lttng_ust_lib_ring_buffer_ctx × IpcNsThread :=
  let r := get_ipc_ns c k t
  let ipc_ns := r.1
  let ctx := lib_ring_buffer_align_ctx ctx tg.lttng_alignof_ino_t
  let ctx := event_write ctx ipc_ns tg.sizeof_ino_t
  (ctx, r.2)

/-- The padding that brings `offset` up to a multiple of `alignment`, as the
claim on the two passes words it. -/
def align_padding (offset alignment : Nat) : Nat :=
  (alignment - offset % alignment) % alignment

/-! ## `lttng-context-ipc-ns.c`: registering the field -/

/-- Modelled from the spec: the integer type descriptor
`lttng_ust_create_type_integer` builds (the type system is not among the
sources): "an integer type with bit width, alignment in bits, signedness, byte
order, display base". -/
structure lttng_ust_type_integer where
  size : Nat
  alignment : Nat
  signedness : Bool
  byte_order : Nat
  base : Nat
deriving DecidableEq, Repr

/-- The callbacks a context field may hold: the three of this file, or the
callback of another provider, given by its address. -/
inductive CtxCallback where
  | ipc_ns_get_size
  | ipc_ns_record
  | ipc_ns_get_value
  | other (addr : Nat)
deriving DecidableEq, Repr

/-- Modelled from the spec: `struct lttng_ust_ctx_field` with its
`event_field` (the context headers are not among the sources): "unique name; a
type descriptor and three behaviors". A `none` is a `NULL` member, as in the
slot `lttng_append_context` hands out. -/
structure lttng_ust_ctx_field where
  name : Option String
  type : Option lttng_ust_type_integer
  get_size : Option CtxCallback
  record : Option CtxCallback
  get_value : Option CtxCallback
deriving DecidableEq, Repr

/-- Modelled from the spec: `struct lttng_ust_ctx`, the registry (the context
headers are not among the sources): "an ordered sequence of
ContextFieldDescriptor", and the number of times its update signal was raised. -/
structure lttng_ust_ctx where
  fields : List lttng_ust_ctx_field
  updates : Nat
deriving DecidableEq, Repr

/-- The registry and the number of live type descriptors on the heap. -/
structure CtxWorld where
  ctx : lttng_ust_ctx
  live_types : Nat
deriving DecidableEq, Repr

/-- Which of the three allocations of one call succeed. -/
structure Alloc where
  type_ok : Bool
  append_ok : Bool
  strdup_ok : Bool
deriving DecidableEq, Repr

/-- Modelled from the spec: `lttng_ust_create_type_integer`, which is not among
the sources: "construct an integer type"; `NULL` when the allocation fails. -/
def lttng_ust_create_type_integer (ok : Bool) (size alignment : Nat) (signedness : Bool)
    (byte_order base : Nat) (w : CtxWorld) : Option lttng_ust_type_integer × CtxWorld :=
  if ok then
    (some { size := size, alignment := alignment, signedness := signedness,
            byte_order := byte_order, base := base },
      { w with live_types := w.live_types + 1 })
  else (none, w)

/-- Modelled from the spec: `lttng_ust_destroy_type`, which is not among the
sources: "destroy a type descriptor". -/
def lttng_ust_destroy_type (_type : lttng_ust_type_integer) (w : CtxWorld) : CtxWorld :=
  { w with live_types := w.live_types - 1 }

/-- Modelled from the spec: `lttng_append_context`, which is not among the
sources: "reserves a new slot at the end of the sequence; returns a handle the
caller fills in. Fails with OutOfMemory if storage cannot grow". The handle is
the index of the slot; `none` is the `NULL` of a failure. -/
def lttng_append_context (ok : Bool) (w : CtxWorld) : Option Nat × CtxWorld :=
  if ok then
    (some w.ctx.fields.length,
      { w with ctx := { w.ctx with fields := w.ctx.fields ++
          [{ name := none, type := none, get_size := none, record := none,
             get_value := none }] } })
  else (none, w)

/-- Modelled from the spec: `lttng_find_context`, which is not among the
sources: "linear lookup by name; used only to reject duplicates". -/
def lttng_find_context (ctx : lttng_ust_ctx) (name : String) : Bool :=
  ctx.fields.any (fun f => f.name == some name)

/-- Modelled from the spec: `lttng_remove_context_field`, which is not among the
sources: "detaches and frees a field", its type descriptor (when it has one) and
its name. -/
def lttng_remove_context_field (field : Nat) (w : CtxWorld) : CtxWorld :=
  { ctx := { w.ctx with fields := w.ctx.fields.eraseIdx field },
    live_types :=
      match w.ctx.fields.get? field with
      | some f => if f.type.isSome then w.live_types - 1 else w.live_types
      | none => w.live_types }

/-- Modelled from the spec: `lttng_context_update`, which is not among the
sources: "raise the registry's update signal". -/
def lttng_context_update (w : CtxWorld) : CtxWorld :=
  { w with ctx := { w.ctx with updates := w.ctx.updates + 1 } }

/-- The libc `strdup`: a copy of the string, `NULL` when the allocation fails. -/
def strdup (ok : Bool) (str : String) : Option String :=
  if ok then some str else none

/-- Assignment through the handle `field`: the slot at that index is replaced
by `f` of it. -/
def ctx_field_assign (field : Nat) (f : lttng_ust_ctx_field → lttng_ust_ctx_field)
    (w : CtxWorld) : CtxWorld :=
  { w with ctx := { w.ctx with fields := w.ctx.fields.modify f field } }

def lttng_add_ipc_ns_to_ctx (tg : Target) (a : Alloc) (w : CtxWorld) : Int × CtxWorld :=
  match lttng_ust_create_type_integer a.type_ok (tg.sizeof_ino_t * CHAR_BIT)
      (tg.lttng_alignof_ino_t * CHAR_BIT) tg.ino_t_is_signed tg.BYTE_ORDER 10 w with
  | (none, w) => (-ENOMEM, w)
  | (some type, w) =>
    match lttng_append_context a.append_ok w with
    | (none, w) => (-ENOMEM, lttng_ust_destroy_type type w)
    | (some field, w) =>
      if lttng_find_context w.ctx "ipc_ns" then
        (-EEXIST, lttng_ust_destroy_type type (lttng_remove_context_field field w))
      else
        let name := strdup a.strdup_ok "ipc_ns"
        let w := ctx_field_assign field (fun f => { f with name := name }) w
        if name.isNone then
          (-ENOMEM, lttng_ust_destroy_type type (lttng_remove_context_field field w))
        else
          let w := ctx_field_assign field (fun f => { f with type := some type }) w
          let w := ctx_field_assign field
            (fun f => { f with get_size := some CtxCallback.ipc_ns_get_size }) w
          let w := ctx_field_assign field
            (fun f => { f with record := some CtxCallback.ipc_ns_record }) w
          let w := ctx_field_assign field
            (fun f => { f with get_value := some CtxCallback.ipc_ns_get_value }) w
          (0, lttng_context_update w)

/-- The ipc_ns field as a successful registration leaves it. -/
def ipc_ns_field (tg : Target) : lttng_ust_ctx_field :=
  { name := some "ipc_ns",
    type := some { size := tg.sizeof_ino_t * CHAR_BIT,
                   alignment := tg.lttng_alignof_ino_t * CHAR_BIT,
                   signedness := tg.ino_t_is_signed,
                   byte_order := tg.BYTE_ORDER, base := 10 },
    get_size := some CtxCallback.ipc_ns_get_size,
    record := some CtxCallback.ipc_ns_record,
    get_value := some CtxCallback.ipc_ns_get_value }

/-- The names of the registered fields, in registration order. -/
def ctx_names (w : CtxWorld) : List (Option String) :=
  w.ctx.fields.map (fun f => f.name)

/-- A field of another provider, already registered. -/
def vpid_field : lttng_ust_ctx_field :=
  { name := some "vpid",
    type := some { size := 32, alignment := 32, signedness := true, byte_order := 1234,
                   base := 10 },
    get_size := some (CtxCallback.other 1), record := some (CtxCallback.other 2),
    get_value := some (CtxCallback.other 3) }

/-- A registry that holds one field, `vpid`. -/
def ctx_vpid : CtxWorld :=
  { ctx := { fields := [vpid_field], updates := 1 }, live_types := 1 }

/-- Every allocation of the call succeeds. -/
def alloc_ok : Alloc := { type_ok := true, append_ok := true, strdup_ok := true }

/-! ## `interfork.c` -/

/-- The calls the two wrappers make out of the file, in the order made.
`libc_fork fn` and `libc_execve fn ..` are calls through the resolved pointer
`fn`, the genuine entry point. -/
inductive Call where
  | dlsym (symbol : String)
  | fprintf_stderr (msg : String)
  | libc_fork (fn : FnPtr)
  | ust_fork
  | ust_potential_exec
  | libc_execve (fn : FnPtr) (filename : String) (argv envp : List String)
deriving DecidableEq, Repr

/-- The two function-local statics, each named `plibc_func` in its function. -/
structure InterforkState where
  fork_plibc_func : FnPtr
  execve_plibc_func : FnPtr
deriving DecidableEq, Repr

/-- Both statics start as `NULL`. -/
def interfork_init : InterforkState := { fork_plibc_func := 0, execve_plibc_func := 0 }

/-- The wrapper `fork`. `dlsym_fork` is what `dlsym(RTLD_NEXT, "fork")` answers
when asked (`0` is `NULL`), `genuine` what the genuine `fork` returns in the
process that goes on. The result: the return value, the statics, the calls
made. -/
def fork (dlsym_fork : FnPtr) (genuine : Int) (s : InterforkState) :
    Int × InterforkState × List Call :=
  if s.fork_plibc_func = 0 then
    let s1 := { s with fork_plibc_func := dlsym_fork }
    if s1.fork_plibc_func = 0 then
      (-1, s1, [Call.dlsym "fork", Call.fprintf_stderr "libcwrap: unable to find fork\n"])
    else
      let retval := genuine
      if retval = 0 then
        (retval, s1, [Call.dlsym "fork", Call.libc_fork s1.fork_plibc_func, Call.ust_fork])
      else (retval, s1, [Call.dlsym "fork", Call.libc_fork s1.fork_plibc_func])
  else
    let retval := genuine
    if retval = 0 then (retval, s, [Call.libc_fork s.fork_plibc_func, Call.ust_fork])
    else (retval, s, [Call.libc_fork s.fork_plibc_func])

/-- The wrapper `execve`. `dlsym_execve` is what `dlsym(RTLD_NEXT, "execve")`
answers when asked, `genuine` what the genuine `execve` does: `none` when the
image is replaced (it does not return), `some r` when it fails and returns `r`.
The result: the return value (`none` when the wrapper does not return), the
statics, the calls made. -/
def execve (dlsym_execve : FnPtr) (genuine : Option Int) (filename : String)
    (argv envp : List String) (s : InterforkState) :
    Option Int × InterforkState × List Call :=
  if s.execve_plibc_func = 0 then
    let s1 := { s with execve_plibc_func := dlsym_execve }
    if s1.execve_plibc_func = 0 then
      (some (-1), s1,
        [Call.dlsym "execve", Call.fprintf_stderr "libcwrap: unable to find execve\n"])
    else
      let retval := genuine
      (retval, s1, [Call.dlsym "execve", Call.ust_potential_exec,
        Call.libc_execve s1.execve_plibc_func filename argv envp])
  else
    let retval := genuine
    (retval, s, [Call.ust_potential_exec,
      Call.libc_execve s.execve_plibc_func filename argv envp])

/-- The genuine entry point a call resolves to: the cached pointer when there
is one, else the answer of `dlsym`; `0` when neither. -/
def resolved (cached dlsym_answer : FnPtr) : FnPtr :=
  if cached = 0 then dlsym_answer else cached

/-- The calls of the lookup: one `dlsym` when nothing is cached, none else. -/
def lookup_calls (cached : FnPtr) (symbol : String) : List Call :=
  if cached = 0 then [Call.dlsym symbol] else []

/-- Whether a call is a call of the genuine `execve`. -/
def Call.is_libc_execve : Call → Bool
  | Call.libc_execve _ _ _ _ => true
  | _ => false

/-! ## `compat.h` -/

/-- The NUL character that ends a C string. -/
def NUL : Char := Char.ofNat 0

/-- `#define LTTNG_UST_PROCNAME_SUFFIX "-ust"`. -/
def LTTNG_UST_PROCNAME_SUFFIX : String := "-ust"

/-- Conversion of an integer to `size_t` (64 bits, unsigned): modulo `2^64`. -/
def to_size_t (x : Int) : Int := x % 2 ^ 64

/-- Conversion of an integer to `int` (32 bits, two's complement). -/
def to_int (x : Int) : Int := (x + 2 ^ 31) % 2 ^ 32 - 2 ^ 31

/-- The libc `strlen` on a buffer: the number of characters before the first
NUL; `none` when the buffer holds no NUL (the read runs past its end). -/
def strlen : List Char → Option Nat
  | [] => none
  | ch :: rest => if ch = NUL then some 0 else (strlen rest).map (· + 1)

/-- The libc `strnlen` on a buffer: as `strlen`, reading at most `maxlen`
characters. -/
def strnlen : List Char → Nat → Option Nat
  | _, 0 => some 0
  | [], _ + 1 => none
  | ch :: rest, maxlen + 1 =>
    if ch = NUL then some 0 else (strnlen rest maxlen).map (· + 1)

/-- The C string a buffer holds: its characters before the first NUL. -/
def c_string (buf : List Char) : List Char := buf.takeWhile (fun ch => ch ≠ NUL)

/-- The libc `sprintf(buf + pos, text)` for a format `text` without conversion:
`text` and a NUL are stored from index `pos` on, and the length of `text` is
returned; `none` when a byte of them falls outside the buffer. -/
def sprintf (buf : List Char) (pos : Int) (text : String) : Option (Int × List Char) :=
  if 0 ≤ pos ∧ pos.toNat + text.length + 1 ≤ buf.length then
    some ((text.length : Int),
      buf.take pos.toNat ++ text.data ++ [NUL] ++ buf.drop (pos.toNat + text.length + 1))
  else none

/-- What a call of `lttng_ust_setustprocname` ends in: its return value, and
the name handed to the underlying set-name call when that call is made. -/
structure SetNameResult where
  ret : Int
  name_set : Option (List Char)
deriving DecidableEq, Repr

/-- `lttng_pthread_setname_np`, in the variants that check the length
(`pthread_setname_np` with a thread id, `pthread_set_name_np`, `prctl`):
`underlying` is what the underlying call returns. `none` when `strnlen` reads
past the buffer. -/
def lttng_pthread_setname_np (LTTNG_UST_ABI_PROCNAME_LEN : Nat) (underlying : Int)
    (name : List Char) : Option SetNameResult :=
  match strnlen name LTTNG_UST_ABI_PROCNAME_LEN with
  | none => none
  | some n =>
    if n ≥ LTTNG_UST_ABI_PROCNAME_LEN then some { ret := ERANGE, name_set := none }
    else some { ret := underlying, name_set := some (c_string name) }

/-- `lttng_ust_setustprocname`. `LTTNG_UST_ABI_PROCNAME_LEN` comes from
`lttng/ust-abi.h`, a header that is not among the sources: it is an argument.
`getname_ret` and `getname_buf` are what `lttng_pthread_getname_np` returns and
leaves in the buffer `name`, `setname_ret` what the underlying set-name call
returns. `none` when a read or a write falls outside `name`. -/
def lttng_ust_setustprocname (LTTNG_UST_ABI_PROCNAME_LEN : Nat) (getname_ret : Int)
    (getname_buf : List Char) (setname_ret : Int) : Option SetNameResult :=
  let limit : Int :=
    to_int (to_size_t ((LTTNG_UST_ABI_PROCNAME_LEN : Int) - LTTNG_UST_PROCNAME_SUFFIX.length - 1))
  let ret := getname_ret
  let name := getname_buf
  if ret ≠ 0 then some { ret := ret, name_set := none }
  else
    (strlen name).bind fun n =>
      let len := to_int n
      let len := if len > limit then limit else len
      (sprintf name len LTTNG_UST_PROCNAME_SUFFIX).bind fun r =>
        let ret := r.1
        let name := r.2
        if to_size_t ret ≠ LTTNG_UST_PROCNAME_SUFFIX.length then
          some { ret := ret, name_set := none }
        else lttng_pthread_setname_np LTTNG_UST_ABI_PROCNAME_LEN setname_ret name

/-! # Theorems -/

/-! ### Lemmas on the clock override -/

theorem ClockOp.run_active (op : ClockOp) (s : ClockState)
    (h : s.lttng_trace_clock = ClockPtr.addr_user_tc) : op.run s = (-EBUSY, s) := by
  cases op <;>
    simp [ClockOp.run, lttng_ust_trace_clock_set_read64_cb, lttng_ust_trace_clock_set_freq_cb,
      lttng_ust_trace_clock_set_uuid_cb, lttng_ust_trace_clock_set_name_cb,
      lttng_ust_trace_clock_set_description_cb, lttng_ust_enable_trace_clock_override, h]

theorem run_clock_ops_active (ops : List ClockOp) (s : ClockState)
    (h : s.lttng_trace_clock = ClockPtr.addr_user_tc) :
    run_clock_ops ops s = (List.replicate ops.length (-EBUSY), s) := by
  induction ops with
  | nil => rfl
  | cons op ops ih =>
    simp [run_clock_ops, ClockOp.run_active op s h, ih, List.replicate_succ]

theorem enable_success_active (s : ClockState)
    (h : (lttng_ust_enable_trace_clock_override s).1 = 0) :
    (lttng_ust_enable_trace_clock_override s).2.lttng_trace_clock = ClockPtr.addr_user_tc := by
  unfold lttng_ust_enable_trace_clock_override at h ⊢
  split_ifs at h ⊢ <;> simp_all [EBUSY, EINVAL]

theorem clock_inv_step (op : ClockOp) (s : ClockState) (h : clock_inv s) :
    clock_inv (op.run s).2 := by
  by_cases ha : s.lttng_trace_clock = ClockPtr.addr_user_tc
  · rw [ClockOp.run_active op s ha]; exact h
  · have hn : s.lttng_trace_clock = ClockPtr.NULL := by
      cases hs : s.lttng_trace_clock <;> simp_all
    cases op <;>
      simp [ClockOp.run, lttng_ust_trace_clock_set_read64_cb, lttng_ust_trace_clock_set_freq_cb,
        lttng_ust_trace_clock_set_uuid_cb, lttng_ust_trace_clock_set_name_cb,
        lttng_ust_trace_clock_set_description_cb, lttng_ust_enable_trace_clock_override,
        clock_inv, hn]
    split_ifs <;> simp_all

theorem clock_inv_run (ops : List ClockOp) (s : ClockState) (h : clock_inv s) :
    clock_inv (run_clock_ops ops s).2 := by
  induction ops generalizing s with
  | nil => exact h
  | cons op ops ih => exact ih _ (clock_inv_step op s h)

/-! ### Claims on the clock override -/

/-- C1: once `lttng_ust_enable_trace_clock_override` has returned 0 the override
is active, and from then on every sequence of setter and enable calls, with any
arguments, returns `-EBUSY` at each call and ends in the very same state (the
pointer and the five callbacks); one more call after it returns `-EBUSY` again
and changes nothing. -/
theorem clock_active_frozen (s : ClockState)
    (h : (lttng_ust_enable_trace_clock_override s).1 = 0)
    (ops : List ClockOp) (op : ClockOp) :
    (lttng_ust_enable_trace_clock_override s).2.lttng_trace_clock = ClockPtr.addr_user_tc ∧
    run_clock_ops ops (lttng_ust_enable_trace_clock_override s).2 =
      (List.replicate ops.length (-EBUSY), (lttng_ust_enable_trace_clock_override s).2) ∧
    op.run (run_clock_ops ops (lttng_ust_enable_trace_clock_override s).2).2 =
      (-EBUSY, (lttng_ust_enable_trace_clock_override s).2) := by
  have ha := enable_success_active s h
  refine ⟨ha, run_clock_ops_active ops _ ha, ?_⟩
  rw [run_clock_ops_active ops _ ha]
  exact ClockOp.run_active op _ ha

theorem clock_active_frozen_witness :
    (lttng_ust_enable_trace_clock_override clock_configured).1 = 0 ∧
    ((lttng_ust_enable_trace_clock_override clock_configured).2.lttng_trace_clock =
      ClockPtr.addr_user_tc ∧
    run_clock_ops [ClockOp.set_read64 0, ClockOp.set_uuid 7, ClockOp.enable]
        (lttng_ust_enable_trace_clock_override clock_configured).2 =
      (List.replicate 3 (-EBUSY), (lttng_ust_enable_trace_clock_override clock_configured).2) ∧
    (ClockOp.set_name 9).run
        (run_clock_ops [ClockOp.set_read64 0, ClockOp.set_uuid 7, ClockOp.enable]
          (lttng_ust_enable_trace_clock_override clock_configured).2).2 =
      (-EBUSY, (lttng_ust_enable_trace_clock_override clock_configured).2)) :=
  ⟨by decide, clock_active_frozen clock_configured (by decide)
    [ClockOp.set_read64 0, ClockOp.set_uuid 7, ClockOp.enable] (ClockOp.set_name 9)⟩

/-- C2: in a state that is not active (`lttng_trace_clock` is `NULL`) and has at
least one of `read64`, `freq`, `name`, `description` unset, enabling returns
`-EINVAL` and the state is the one before the call: nothing is published and
every stored callback is unchanged. -/
theorem enable_missing_callback_einval (s : ClockState)
    (hn : s.lttng_trace_clock = ClockPtr.NULL)
    (hm : s.user_tc.read64 = 0 ∨ s.user_tc.freq = 0 ∨ s.user_tc.name = 0 ∨
      s.user_tc.description = 0) :
    lttng_ust_enable_trace_clock_override s = (-EINVAL, s) ∧
    published_clock (lttng_ust_enable_trace_clock_override s).2 = none := by
  have h1 : lttng_ust_enable_trace_clock_override s = (-EINVAL, s) := by
    unfold lttng_ust_enable_trace_clock_override
    rw [hn]
    split_ifs <;> first | rfl | simp_all
  refine ⟨h1, ?_⟩
  rw [h1]
  simp [published_clock, hn]

theorem enable_missing_callback_einval_witness :
    (run_clock_ops [ClockOp.set_read64 101, ClockOp.set_freq 102] clock_init).2 = clock_half ∧
    lttng_ust_enable_trace_clock_override clock_half = (-22, clock_half) ∧
    published_clock (lttng_ust_enable_trace_clock_override clock_half).2 = none :=
  ⟨by decide, enable_missing_callback_einval clock_half rfl (Or.inr (Or.inr (Or.inl rfl)))⟩

/-- C3: in every state reached from the initial one by a finite sequence of
setter calls (any arguments, `NULL` included) and enable calls, a reader that
finds the override published reads a record whose `read64`, `freq`, `name` and
`description` are all non-null. Nothing is said of `uuid`, which may be null. -/
theorem published_clock_complete (ops : List ClockOp) (tc : lttng_trace_clock_t)
    (h : published_clock (run_clock_ops ops clock_init).2 = some tc) :
    tc.read64 ≠ 0 ∧ tc.freq ≠ 0 ∧ tc.name ≠ 0 ∧ tc.description ≠ 0 := by
  have hinv : clock_inv (run_clock_ops ops clock_init).2 :=
    clock_inv_run ops clock_init (by simp [clock_inv, clock_init])
  unfold published_clock at h
  split at h
  · exact absurd h (by simp)
  · next hp =>
    have := hinv hp
    simp only [Option.some.injEq] at h
    rw [← h]
    exact this

theorem published_clock_complete_witness :
    published_clock (run_clock_ops clock_script clock_init).2 =
      some clock_configured.user_tc ∧
    (clock_configured.user_tc.read64 ≠ 0 ∧ clock_configured.user_tc.freq ≠ 0 ∧
      clock_configured.user_tc.name ≠ 0 ∧ clock_configured.user_tc.description ≠ 0) ∧
    clock_configured.user_tc.uuid = 0 :=
  ⟨by decide, published_clock_complete clock_script clock_configured.user_tc (by decide), by decide⟩

/-! ### Lemmas on the ipc namespace cache -/

theorem get_ipc_ns_cached (c : NsConstants) (k : ProcFs) (t : IpcNsThread)
    (h : t.cached_ipc_ns ≠ c.NS_INO_UNINITIALIZED) : get_ipc_ns c k t = (t.cached_ipc_ns, t) := by
  simp [get_ipc_ns, h]

theorem get_ipc_ns_repeat_cached (c : NsConstants) (ks : List ProcFs) (t : IpcNsThread)
    (h : t.cached_ipc_ns ≠ c.NS_INO_UNINITIALIZED) :
    get_ipc_ns_repeat c ks t = (List.replicate ks.length t.cached_ipc_ns, t) := by
  induction ks with
  | nil => rfl
  | cons k ks ih => simp [get_ipc_ns_repeat, get_ipc_ns_cached c k t h, ih, List.replicate_succ]

theorem snprintf_nonneg (size : Nat) (text : String) : (snprintf size text).1 ≥ 0 := by
  simp [snprintf]

theorem snprintf_fits (size : Nat) (text : String) (h : text.length < size) :
    (snprintf size text).2 = text := by
  have hl : text.data.length ≤ size - 1 := by
    have : text.data.length = text.length := rfl
    omega
  simp [snprintf, List.take_of_length_le hl]

theorem snprintf_task_ne_thread_self (size : Nat) (tid : Int) :
    (snprintf size (proc_self_task_ns_ipc tid)).2 ≠ "/proc/thread-self/ns/ipc" := by
  intro h
  have h6 := congrArg (fun p : String => p.data[6]?) h
  have hd : (proc_self_task_ns_ipc tid).data =
      ['/', 'p', 'r', 'o', 'c', '/', 's', 'e', 'l', 'f', '/', 't', 'a', 's', 'k', '/'] ++
        ((toString tid).data ++ "/ns/ipc".data) := by
    simp [proc_self_task_ns_ipc, String.data_append]
  simp only [snprintf, hd, List.getElem?_take] at h6
  split_ifs at h6
  · simp at h6
  · revert h6
    decide

theorem get_ipc_ns_stores (c : NsConstants) (k : ProcFs) (t : IpcNsThread) :
    (get_ipc_ns c k t).2.cached_ipc_ns = (get_ipc_ns c k t).1 := by
  unfold get_ipc_ns
  simp only
  split_ifs <;> first | rfl | (split <;> first | rfl | (split <;> rfl))

theorem get_ipc_ns_queries (c : NsConstants) (k : ProcFs) (t : IpcNsThread)
    (h : t.cached_ipc_ns = c.NS_INO_UNINITIALIZED) :
    ipc_ns_queries (get_ipc_ns c k t).2 = ipc_ns_queries t + 1 := by
  have hne := snprintf_task_ne_thread_self c.LTTNG_PROC_NS_PATH_MAX k.lttng_gettid
  have hnn := snprintf_nonneg c.LTTNG_PROC_NS_PATH_MAX (proc_self_task_ns_ipc k.lttng_gettid)
  unfold get_ipc_ns
  simp only [h, ne_eq, not_true_eq_false, if_false, hnn, if_true]
  split
  · simp [ipc_ns_queries]
  · split <;> simp [ipc_ns_queries, List.count_cons, hne]

theorem toDigitsCore_length_le (fuel : Nat) : ∀ (n k : Nat) (ds : List Char), 0 < k → n < 10 ^ k →
    (Nat.toDigitsCore 10 fuel n ds).length ≤ ds.length + k := by
  induction fuel with
  | zero => intro n k ds hk hn; simp [Nat.toDigitsCore]
  | succ fuel ih =>
    intro n k ds hk hn
    simp only [Nat.toDigitsCore]
    split_ifs with h0
    · simp; omega
    · have hk2 : 2 ≤ k := by
        by_contra hlt
        have : k = 1 := by omega
        subst this
        have : n / 10 = 0 := Nat.div_eq_of_lt (by simpa using hn)
        exact h0 this
      have hdiv : n / 10 < 10 ^ (k - 1) := by
        apply Nat.div_lt_of_lt_mul
        have : 10 ^ k = 10 * 10 ^ (k - 1) := by
          rw [← pow_succ']; congr 1; omega
        omega
      have := ih (n / 10) (k - 1) ((n % 10).digitChar :: ds) (by omega) hdiv
      simp at this
      omega

theorem nat_repr_length_le (n : Nat) (h : n < 10 ^ 10) : (toString n).length ≤ 10 := by
  have := toDigitsCore_length_le (n + 1) n 10 [] (by norm_num) h
  have e : (toString n).length = (Nat.toDigitsCore 10 (n + 1) n []).length := rfl
  rw [e]
  simpa using this

theorem int_repr_length_le (z : Int) (h1 : -2 ^ 31 ≤ z) (h2 : z < 2 ^ 31) : (toString z).length ≤ 11 := by
  cases z with
  | ofNat m =>
    have : m < 10 ^ 10 := by
      have : (m : Int) < 2 ^ 31 := h2
      norm_num at this ⊢; omega
    have := nat_repr_length_le m this
    show (toString m).length ≤ 11
    omega
  | negSucc m =>
    have : m + 1 < 10 ^ 10 := by
      have : -2 ^ 31 ≤ Int.negSucc m := h1
      rw [Int.negSucc_eq] at this
      norm_num at this ⊢; omega
    have := nat_repr_length_le (m + 1) this
    show ("-" ++ toString (m + 1)).length ≤ 11
    rw [String.length_append]
    have : "-".length = 1 := by decide
    omega

/-- The per-thread path fits every buffer of 35 bytes or more, whatever the
thread id (a 32-bit `int`): `snprintf` does not truncate it. -/
theorem proc_self_task_ns_ipc_fits (tid : Int) (h1 : -2 ^ 31 ≤ tid) (h2 : tid < 2 ^ 31)
    (size : Nat) (hs : 35 ≤ size) : (proc_self_task_ns_ipc tid).length < size := by
  have h := int_repr_length_le tid h1 h2
  have ha : "/proc/self/task/".length = 16 := by decide
  have hb : "/ns/ipc".length = 7 := by decide
  simp only [proc_self_task_ns_ipc, String.length_append, ha, hb]
  omega

theorem get_ipc_ns_thread_self (c : NsConstants) (k : ProcFs) (t : IpcNsThread) (ino : ino_t)
    (h0 : t.cached_ipc_ns = c.NS_INO_UNINITIALIZED)
    (hs : k.stat "/proc/thread-self/ns/ipc" = some ino) :
    get_ipc_ns c k t =
      (ino, { cached_ipc_ns := ino,
              stat_calls := t.stat_calls ++ ["/proc/thread-self/ns/ipc"] }) := by
  simp [get_ipc_ns, h0, hs]

theorem get_ipc_ns_task (c : NsConstants) (k : ProcFs) (t : IpcNsThread)
    (h0 : t.cached_ipc_ns = c.NS_INO_UNINITIALIZED)
    (hfit : (proc_self_task_ns_ipc k.lttng_gettid).length < c.LTTNG_PROC_NS_PATH_MAX)
    (hs : k.stat "/proc/thread-self/ns/ipc" = none) :
    get_ipc_ns c k t =
      ((k.stat (proc_self_task_ns_ipc k.lttng_gettid)).getD NS_INO_UNAVAILABLE,
        { cached_ipc_ns := (k.stat (proc_self_task_ns_ipc k.lttng_gettid)).getD NS_INO_UNAVAILABLE,
          stat_calls := t.stat_calls ++
            ["/proc/thread-self/ns/ipc", proc_self_task_ns_ipc k.lttng_gettid] }) := by
  have hnn := snprintf_nonneg c.LTTNG_PROC_NS_PATH_MAX (proc_self_task_ns_ipc k.lttng_gettid)
  have hp := snprintf_fits c.LTTNG_PROC_NS_PATH_MAX _ hfit
  unfold get_ipc_ns
  simp only [h0, ne_eq, not_true_eq_false, if_false, hs, hnn, if_true, hp]
  cases hk : k.stat (proc_self_task_ns_ipc k.lttng_gettid) <;> simp

/-! ### Claims on the ipc namespace cache -/

/-- C4, as the code has it: on an uninitialized cache the first `get_ipc_ns`
makes exactly one lookup; when what it returns is not the value
`NS_INO_UNINITIALIZED` (an inode number other than that value, or the failure
value), every later `get_ipc_ns`, whatever the kernel would answer, returns the
same value and leaves the thread state as it is, so it calls `stat` no more;
and after `lttng_context_ipc_ns_reset` the next `get_ipc_ns` makes exactly one
new lookup. -/
theorem ipc_ns_cache_single_query (c : NsConstants) (k1 : ProcFs) (ks : List ProcFs)
    (k3 : ProcFs) (t : IpcNsThread)
    (h0 : t.cached_ipc_ns = c.NS_INO_UNINITIALIZED)
    (h1 : (get_ipc_ns c k1 t).1 ≠ c.NS_INO_UNINITIALIZED) :
    ipc_ns_queries (get_ipc_ns c k1 t).2 = ipc_ns_queries t + 1 ∧
    get_ipc_ns_repeat c ks (get_ipc_ns c k1 t).2 =
      (List.replicate ks.length (get_ipc_ns c k1 t).1, (get_ipc_ns c k1 t).2) ∧
    ipc_ns_queries (get_ipc_ns c k3 (lttng_context_ipc_ns_reset c
      (get_ipc_ns_repeat c ks (get_ipc_ns c k1 t).2).2)).2 = ipc_ns_queries t + 2 := by
  have hq := get_ipc_ns_queries c k1 t h0
  have hst := get_ipc_ns_stores c k1 t
  have hrep := get_ipc_ns_repeat_cached c ks (get_ipc_ns c k1 t).2 (by rw [hst]; exact h1)
  rw [hst] at hrep
  refine ⟨hq, hrep, ?_⟩
  rw [hrep, get_ipc_ns_queries c k3 _ rfl]
  show ipc_ns_queries (get_ipc_ns c k1 t).2 + 1 = _
  omega

theorem ipc_ns_cache_single_query_witness :
    (ipc_ns_thread_init ns_h).cached_ipc_ns = ns_h.NS_INO_UNINITIALIZED ∧
    (get_ipc_ns ns_h (procfs_thread_self 4026531839) (ipc_ns_thread_init ns_h)).1 = 4026531839 ∧
    (ipc_ns_queries
        (get_ipc_ns ns_h (procfs_thread_self 4026531839) (ipc_ns_thread_init ns_h)).2 =
      ipc_ns_queries (ipc_ns_thread_init ns_h) + 1 ∧
    get_ipc_ns_repeat ns_h [procfs_none, procfs_thread_self 7]
        (get_ipc_ns ns_h (procfs_thread_self 4026531839) (ipc_ns_thread_init ns_h)).2 =
      (List.replicate [procfs_none, procfs_thread_self 7].length
        (get_ipc_ns ns_h (procfs_thread_self 4026531839) (ipc_ns_thread_init ns_h)).1,
        (get_ipc_ns ns_h (procfs_thread_self 4026531839) (ipc_ns_thread_init ns_h)).2) ∧
    ipc_ns_queries (get_ipc_ns ns_h (procfs_task_only 4026532000)
      (lttng_context_ipc_ns_reset ns_h
        (get_ipc_ns_repeat ns_h [procfs_none, procfs_thread_self 7]
          (get_ipc_ns ns_h (procfs_thread_self 4026531839)
            (ipc_ns_thread_init ns_h)).2).2)).2 =
      ipc_ns_queries (ipc_ns_thread_init ns_h) + 2) :=
  ⟨rfl, by decide,
    ipc_ns_cache_single_query ns_h (procfs_thread_self 4026531839)
      [procfs_none, procfs_thread_self 7] (procfs_task_only 4026532000)
      (ipc_ns_thread_init ns_h) rfl (by decide)⟩

/-- C4 as stated fails when `stat` reports the inode number that is the value
of `NS_INO_UNINITIALIZED` (1 in `ns_h`): the first read returns and stores 1
after one lookup, and the second read, with no reset in between, looks up
again (two lookups in all) and returns what the kernel answers then, here
4026531839. The second part: whatever the value of the constant, a first read
to which `stat` reports that value is followed by a read that looks up again. -/
theorem ipc_ns_cache_sentinel_counterexample :
    ((get_ipc_ns ns_h (procfs_thread_self 1) (ipc_ns_thread_init ns_h)).1 = 1 ∧
      ipc_ns_queries (get_ipc_ns ns_h (procfs_thread_self 1) (ipc_ns_thread_init ns_h)).2 = 1 ∧
      (get_ipc_ns ns_h (procfs_thread_self 4026531839)
        (get_ipc_ns ns_h (procfs_thread_self 1) (ipc_ns_thread_init ns_h)).2).1 = 4026531839 ∧
      ipc_ns_queries (get_ipc_ns ns_h (procfs_thread_self 4026531839)
        (get_ipc_ns ns_h (procfs_thread_self 1) (ipc_ns_thread_init ns_h)).2).2 = 2) ∧
    (∀ (c : NsConstants) (k2 : ProcFs),
      ipc_ns_queries (get_ipc_ns c k2
        (get_ipc_ns c (procfs_thread_self c.NS_INO_UNINITIALIZED) (ipc_ns_thread_init c)).2).2
        = 2) := by
  refine ⟨by decide, ?_⟩
  intro c k2
  have h1 := get_ipc_ns_thread_self c (procfs_thread_self c.NS_INO_UNINITIALIZED)
    (ipc_ns_thread_init c) c.NS_INO_UNINITIALIZED rfl (by simp [procfs_thread_self])
  rw [h1, get_ipc_ns_queries c k2 _ rfl]
  simp [ipc_ns_queries, ipc_ns_thread_init]

/-- C5: on an uninitialized cache `get_ipc_ns` returns and stores
(1) the inode of `/proc/thread-self/ns/ipc` when that `stat` succeeds, and it
is then the only `stat` made; (2) else the inode of
`/proc/self/task/<tid>/ns/ipc`, with the calling thread's id, when that `stat`
succeeds; (3) else `NS_INO_UNAVAILABLE`, which is 0. In case (3) the later
reads return `NS_INO_UNAVAILABLE` and leave the thread state as it is (no
`stat` is retried), and a read after `lttng_context_ipc_ns_reset` looks up
again. The buffer is taken large enough for the per-thread path, and the two
values of `ns.h` distinct. -/
theorem get_ipc_ns_lookup (c : NsConstants) (k : ProcFs) (t : IpcNsThread)
    (ks : List ProcFs) (k3 : ProcFs)
    (h0 : t.cached_ipc_ns = c.NS_INO_UNINITIALIZED)
    (hfit : (proc_self_task_ns_ipc k.lttng_gettid).length < c.LTTNG_PROC_NS_PATH_MAX)
    (hne : c.NS_INO_UNINITIALIZED ≠ NS_INO_UNAVAILABLE) :
    (∀ ino, k.stat "/proc/thread-self/ns/ipc" = some ino →
      get_ipc_ns c k t =
        (ino, { cached_ipc_ns := ino,
                stat_calls := t.stat_calls ++ ["/proc/thread-self/ns/ipc"] })) ∧
    (∀ ino, k.stat "/proc/thread-self/ns/ipc" = none →
      k.stat (proc_self_task_ns_ipc k.lttng_gettid) = some ino →
      get_ipc_ns c k t =
        (ino, { cached_ipc_ns := ino,
                stat_calls := t.stat_calls ++
                  ["/proc/thread-self/ns/ipc", proc_self_task_ns_ipc k.lttng_gettid] })) ∧
    (k.stat "/proc/thread-self/ns/ipc" = none →
      k.stat (proc_self_task_ns_ipc k.lttng_gettid) = none →
      get_ipc_ns c k t =
        (NS_INO_UNAVAILABLE,
          { cached_ipc_ns := NS_INO_UNAVAILABLE,
            stat_calls := t.stat_calls ++
              ["/proc/thread-self/ns/ipc", proc_self_task_ns_ipc k.lttng_gettid] }) ∧
      NS_INO_UNAVAILABLE = 0 ∧
      get_ipc_ns_repeat c ks (get_ipc_ns c k t).2 =
        (List.replicate ks.length NS_INO_UNAVAILABLE, (get_ipc_ns c k t).2) ∧
      ipc_ns_queries (get_ipc_ns c k3 (lttng_context_ipc_ns_reset c
        (get_ipc_ns_repeat c ks (get_ipc_ns c k t).2).2)).2 =
          ipc_ns_queries (get_ipc_ns c k t).2 + 1) := by
  refine ⟨fun ino hs => get_ipc_ns_thread_self c k t ino h0 hs, ?_, ?_⟩
  · intro ino hs htask
    rw [get_ipc_ns_task c k t h0 hfit hs, htask]
    rfl
  · intro hs htask
    have hg := get_ipc_ns_task c k t h0 hfit hs
    rw [htask] at hg
    have hrep := get_ipc_ns_repeat_cached c ks (get_ipc_ns c k t).2
      (by rw [hg]; exact fun h => hne h.symm)
    refine ⟨hg, rfl, ?_, ?_⟩
    · rw [hrep, hg]
      rfl
    · rw [hrep, get_ipc_ns_queries c k3 _ rfl]
      rfl

theorem get_ipc_ns_lookup_witness :
    ((ipc_ns_thread_init ns_h).cached_ipc_ns = ns_h.NS_INO_UNINITIALIZED ∧
      (proc_self_task_ns_ipc procfs_none.lttng_gettid).length < ns_h.LTTNG_PROC_NS_PATH_MAX ∧
      ns_h.NS_INO_UNINITIALIZED ≠ NS_INO_UNAVAILABLE ∧
      procfs_none.stat "/proc/thread-self/ns/ipc" = none ∧
      procfs_none.stat (proc_self_task_ns_ipc procfs_none.lttng_gettid) = none) ∧
    get_ipc_ns ns_h procfs_none (ipc_ns_thread_init ns_h) =
      (0, { cached_ipc_ns := 0,
            stat_calls := ["/proc/thread-self/ns/ipc", "/proc/self/task/1234/ns/ipc"] }) ∧
    get_ipc_ns_repeat ns_h [procfs_thread_self 7, procfs_task_only 8]
        (get_ipc_ns ns_h procfs_none (ipc_ns_thread_init ns_h)).2 =
      ([0, 0], (get_ipc_ns ns_h procfs_none (ipc_ns_thread_init ns_h)).2) ∧
    get_ipc_ns ns_h (procfs_task_only 4026531839) (ipc_ns_thread_init ns_h) =
      (4026531839,
        { cached_ipc_ns := 4026531839,
          stat_calls := ["/proc/thread-self/ns/ipc", "/proc/self/task/1234/ns/ipc"] }) := by
  have h := get_ipc_ns_lookup ns_h procfs_none (ipc_ns_thread_init ns_h)
    [procfs_thread_self 7, procfs_task_only 8] (procfs_thread_self 9) rfl (by decide) (by decide)
  have h2 := get_ipc_ns_lookup ns_h (procfs_task_only 4026531839) (ipc_ns_thread_init ns_h)
    [] procfs_none rfl (by decide) (by decide)
  have h3 := h.2.2 rfl rfl
  exact ⟨⟨rfl, by decide, by decide, rfl, rfl⟩, h3.1, h3.2.2.1, h2.2.1 4026531839 rfl rfl⟩

/-! ### Lemmas on the size and record passes -/

theorem lib_ring_buffer_align_eq_padding (offset k : Nat) (hk : k ≤ 64) :
    lib_ring_buffer_align offset (2 ^ k) = align_padding offset (2 ^ k) := by
  have hpos : 0 < 2 ^ k := Nat.pow_pos (by norm_num)
  have hdvd : (((2 ^ k : Nat) : Int)) ∣ (2 : Int) ^ 64 := by
    rw [Nat.cast_pow]
    exact pow_dvd_pow 2 hk
  have hx : 0 ≤ (((2 ^ k : Nat) : Int) - (offset : Int)) % 2 ^ 64 :=
    Int.emod_nonneg _ (by norm_num)
  have hlt : offset % 2 ^ k < 2 ^ k := Nat.mod_lt _ hpos
  unfold lib_ring_buffer_align align_padding
  rw [Nat.and_pow_two_sub_one_eq_mod]
  apply Int.ofNat_inj.mp
  rw [Int.natCast_mod, Int.toNat_of_nonneg hx, Int.emod_emod_of_dvd _ hdvd, Int.natCast_mod,
    Nat.cast_sub hlt.le, Int.natCast_mod]
  generalize ((2 ^ k : Nat) : Int) = A
  generalize (offset : Int) = B
  rw [Int.sub_emod A B, Int.sub_emod A (B % A), Int.emod_emod_of_dvd B (dvd_refl A)]

theorem align_padding_spec (offset alignment : Nat) (h : 0 < alignment) :
    alignment ∣ offset + align_padding offset alignment ∧
    align_padding offset alignment < alignment := by
  unfold align_padding
  refine ⟨?_, Nat.mod_lt _ h⟩
  have hlt : offset % alignment < alignment := Nat.mod_lt _ h
  rcases Nat.eq_zero_or_pos (offset % alignment) with h0 | hp
  · rw [h0, Nat.sub_zero, Nat.mod_self, Nat.add_zero]
    exact Nat.dvd_of_mod_eq_zero h0
  · rw [Nat.mod_eq_of_lt (by omega)]
    have := Nat.div_add_mod offset alignment
    refine ⟨offset / alignment + 1, ?_⟩
    rw [Nat.mul_add, Nat.mul_one]
    omega

/-! ### Claim on the size and record passes -/

/-- C9: with `lttng_alignof(ino_t)` a power of two, for every running offset
`ipc_ns_get_size` is the padding that brings the offset up to a multiple of
`lttng_alignof(ino_t)` (the padding is below the alignment and the padded
offset is a multiple of it) plus `sizeof(ino_t)`; `ipc_ns_record`, started at
the same offset, moves the write position by exactly that size and makes one
write, of `sizeof(ino_t)` bytes holding the value of `get_ipc_ns`, at the
padded offset. -/
theorem ipc_ns_size_record_agree (tg : Target) (e : Nat) (c : NsConstants) (k : ProcFs)
    (ctx : lttng_ust_lib_ring_buffer_ctx) (t : IpcNsThread)
    (he : e ≤ 64) (ha : tg.lttng_alignof_ino_t = 2 ^ e) :
    ipc_ns_get_size tg ctx.buf_offset =
      align_padding ctx.buf_offset tg.lttng_alignof_ino_t + tg.sizeof_ino_t ∧
    tg.lttng_alignof_ino_t ∣
      ctx.buf_offset + align_padding ctx.buf_offset tg.lttng_alignof_ino_t ∧
    align_padding ctx.buf_offset tg.lttng_alignof_ino_t < tg.lttng_alignof_ino_t ∧
    (ipc_ns_record tg c k ctx t).1.buf_offset =
      ctx.buf_offset + ipc_ns_get_size tg ctx.buf_offset ∧
    (ipc_ns_record tg c k ctx t).1.written =
      ctx.written ++
        [{ pos := ctx.buf_offset + align_padding ctx.buf_offset tg.lttng_alignof_ino_t,
           len := tg.sizeof_ino_t, src := (get_ipc_ns c k t).1 }] ∧
    (ipc_ns_record tg c k ctx t).2 = (get_ipc_ns c k t).2 := by
  have hpad := lib_ring_buffer_align_eq_padding ctx.buf_offset e he
  have hspec := align_padding_spec ctx.buf_offset (2 ^ e) (Nat.pow_pos (by norm_num))
  rw [ha]
  refine ⟨?_, hspec.1, hspec.2, ?_, ?_, rfl⟩
  · simp [ipc_ns_get_size, ha, hpad]
  · simp [ipc_ns_record, ipc_ns_get_size, lib_ring_buffer_align_ctx, event_write, ha, hpad,
      Nat.add_assoc]
  · simp [ipc_ns_record, lib_ring_buffer_align_ctx, event_write, ha, hpad]

theorem ipc_ns_size_record_agree_witness :
    (x86_64.lttng_alignof_ino_t = 2 ^ 3 ∧
      ipc_ns_get_size x86_64 13 = 3 + 8 ∧
      ipc_ns_record x86_64 ns_h (procfs_thread_self 4026531839)
          { buf_offset := 13, written := [] } (ipc_ns_thread_init ns_h) =
        ({ buf_offset := 24, written := [{ pos := 16, len := 8, src := 4026531839 }] },
          { cached_ipc_ns := 4026531839, stat_calls := ["/proc/thread-self/ns/ipc"] })) ∧
    (ipc_ns_get_size x86_64 13 = align_padding 13 x86_64.lttng_alignof_ino_t + 8 ∧
      x86_64.lttng_alignof_ino_t ∣ 13 + align_padding 13 x86_64.lttng_alignof_ino_t ∧
      align_padding 13 x86_64.lttng_alignof_ino_t < x86_64.lttng_alignof_ino_t ∧
      (ipc_ns_record x86_64 ns_h (procfs_thread_self 4026531839)
          { buf_offset := 13, written := [] } (ipc_ns_thread_init ns_h)).1.buf_offset =
        13 + ipc_ns_get_size x86_64 13 ∧
      (ipc_ns_record x86_64 ns_h (procfs_thread_self 4026531839)
          { buf_offset := 13, written := [] } (ipc_ns_thread_init ns_h)).1.written =
        [] ++ [{ pos := 13 + align_padding 13 x86_64.lttng_alignof_ino_t, len := 8,
                 src := (get_ipc_ns ns_h (procfs_thread_self 4026531839)
                   (ipc_ns_thread_init ns_h)).1 }] ∧
      (ipc_ns_record x86_64 ns_h (procfs_thread_self 4026531839)
          { buf_offset := 13, written := [] } (ipc_ns_thread_init ns_h)).2 =
        (get_ipc_ns ns_h (procfs_thread_self 4026531839) (ipc_ns_thread_init ns_h)).2) :=
  ⟨⟨by decide, by decide, by decide⟩,
    ipc_ns_size_record_agree x86_64 3 ns_h (procfs_thread_self 4026531839)
      { buf_offset := 13, written := [] } (ipc_ns_thread_init ns_h) (by decide) (by decide)⟩

/-! ### Lemmas on the registration -/

theorem eraseIdx_length_append_singleton {α : Type} (l : List α) (x : α) :
    (l ++ [x]).eraseIdx l.length = l := by
  induction l with
  | nil => rfl
  | cons a l ih => simp [List.eraseIdx, ih]

theorem modify_length_append_singleton {α : Type} (f : α → α) (l : List α) (x : α) :
    (l ++ [x]).modify f l.length = l ++ [f x] := by
  induction l with
  | nil => rfl
  | cons a l ih => simp [List.modify_succ_cons, ih]

theorem get_length_append_singleton {α : Type} (l : List α) (x : α) :
    (l ++ [x]).get? l.length = some x := by
  induction l with
  | nil => rfl
  | cons a l ih => simp [ih]

theorem lttng_find_context_append (w : CtxWorld) (name : String) :
    lttng_find_context (lttng_append_context true w).2.ctx name =
      lttng_find_context w.ctx name := by
  simp [lttng_find_context, lttng_append_context, List.any_append]

theorem lttng_add_ipc_ns_to_ctx_no_type (tg : Target) (a : Alloc) (w : CtxWorld)
    (h1 : a.type_ok = false) : lttng_add_ipc_ns_to_ctx tg a w = (-ENOMEM, w) := by
  simp [lttng_add_ipc_ns_to_ctx, lttng_ust_create_type_integer, h1]

theorem lttng_add_ipc_ns_to_ctx_no_slot (tg : Target) (a : Alloc) (w : CtxWorld)
    (h1 : a.type_ok = true) (h2 : a.append_ok = false) :
    lttng_add_ipc_ns_to_ctx tg a w = (-ENOMEM, w) := by
  simp [lttng_add_ipc_ns_to_ctx, lttng_ust_create_type_integer, lttng_append_context,
    lttng_ust_destroy_type, h1, h2]

theorem lttng_add_ipc_ns_to_ctx_exists (tg : Target) (a : Alloc) (w : CtxWorld)
    (h1 : a.type_ok = true) (h2 : a.append_ok = true)
    (h3 : lttng_find_context w.ctx "ipc_ns" = true) :
    lttng_add_ipc_ns_to_ctx tg a w = (-EEXIST, w) := by
  have hf := lttng_find_context_append { w with live_types := w.live_types + 1 } "ipc_ns"
  simp only [lttng_append_context, if_true] at hf
  simp [lttng_add_ipc_ns_to_ctx, lttng_ust_create_type_integer, lttng_append_context,
    lttng_ust_destroy_type, lttng_remove_context_field, h1, h2, hf, h3,
    eraseIdx_length_append_singleton, get_length_append_singleton]

theorem lttng_add_ipc_ns_to_ctx_no_name (tg : Target) (a : Alloc) (w : CtxWorld)
    (h1 : a.type_ok = true) (h2 : a.append_ok = true)
    (h3 : lttng_find_context w.ctx "ipc_ns" = false) (h4 : a.strdup_ok = false) :
    lttng_add_ipc_ns_to_ctx tg a w = (-ENOMEM, w) := by
  have hf := lttng_find_context_append { w with live_types := w.live_types + 1 } "ipc_ns"
  simp only [lttng_append_context, if_true] at hf
  simp [lttng_add_ipc_ns_to_ctx, lttng_ust_create_type_integer, lttng_append_context,
    lttng_ust_destroy_type, lttng_remove_context_field, ctx_field_assign, strdup, h1, h2, hf, h3,
    h4, eraseIdx_length_append_singleton, get_length_append_singleton,
    modify_length_append_singleton]

theorem lttng_add_ipc_ns_to_ctx_ok (tg : Target) (a : Alloc) (w : CtxWorld)
    (h1 : a.type_ok = true) (h2 : a.append_ok = true)
    (h3 : lttng_find_context w.ctx "ipc_ns" = false) (h4 : a.strdup_ok = true) :
    lttng_add_ipc_ns_to_ctx tg a w =
      (0, { ctx := { fields := w.ctx.fields ++ [ipc_ns_field tg],
                     updates := w.ctx.updates + 1 },
            live_types := w.live_types + 1 }) := by
  have hf := lttng_find_context_append { w with live_types := w.live_types + 1 } "ipc_ns"
  simp only [lttng_append_context, if_true] at hf
  simp [lttng_add_ipc_ns_to_ctx, lttng_ust_create_type_integer, lttng_append_context,
    lttng_context_update, ctx_field_assign, strdup, ipc_ns_field, h1, h2, hf, h3,
    h4, modify_length_append_singleton]

theorem lttng_find_context_ipc_ns_field (tg : Target) (w : CtxWorld) :
    lttng_find_context
      { fields := w.ctx.fields ++ [ipc_ns_field tg], updates := w.ctx.updates + 1 }
      "ipc_ns" = true := by
  simp [lttng_find_context, ipc_ns_field, List.any_append]

theorem lttng_add_ipc_ns_to_ctx_fail (tg : Target) (a : Alloc) (w : CtxWorld)
    (h : (lttng_add_ipc_ns_to_ctx tg a w).1 ≠ 0) : (lttng_add_ipc_ns_to_ctx tg a w).2 = w := by
  cases h1 : a.type_ok
  · rw [lttng_add_ipc_ns_to_ctx_no_type tg a w h1]
  · cases h2 : a.append_ok
    · rw [lttng_add_ipc_ns_to_ctx_no_slot tg a w h1 h2]
    · cases h3 : lttng_find_context w.ctx "ipc_ns"
      · cases h4 : a.strdup_ok
        · rw [lttng_add_ipc_ns_to_ctx_no_name tg a w h1 h2 h3 h4]
        · rw [lttng_add_ipc_ns_to_ctx_ok tg a w h1 h2 h3 h4] at h
          exact absurd rfl h
      · rw [lttng_add_ipc_ns_to_ctx_exists tg a w h1 h2 h3]

/-! ### Claim on the registration -/

/-- C6: a call of `lttng_add_ipc_ns_to_ctx` returns `-ENOMEM` when the type
descriptor cannot be built, `-ENOMEM` when the slot cannot be appended,
`-EEXIST` when a field named "ipc_ns" is registered already, `-ENOMEM` when the
name cannot be duplicated, and in each of these the registry (hence its field
count and its names) and the heap are as before the call; every call that
returns non-zero leaves them so. After a successful registration, a second call
whose type descriptor and slot can be allocated returns `-EEXIST`, changes
nothing, and the field of the first call is still there, last in the
registry, with its name, type and three callbacks. -/
theorem lttng_add_ipc_ns_to_ctx_rollback (tg : Target) (a a2 : Alloc) (w : CtxWorld) :
    (a.type_ok = false → lttng_add_ipc_ns_to_ctx tg a w = (-ENOMEM, w)) ∧
    (a.type_ok = true → a.append_ok = false →
      lttng_add_ipc_ns_to_ctx tg a w = (-ENOMEM, w)) ∧
    (a.type_ok = true → a.append_ok = true → lttng_find_context w.ctx "ipc_ns" = true →
      lttng_add_ipc_ns_to_ctx tg a w = (-EEXIST, w)) ∧
    (a.type_ok = true → a.append_ok = true → lttng_find_context w.ctx "ipc_ns" = false →
      a.strdup_ok = false → lttng_add_ipc_ns_to_ctx tg a w = (-ENOMEM, w)) ∧
    ((lttng_add_ipc_ns_to_ctx tg a w).1 ≠ 0 →
      (lttng_add_ipc_ns_to_ctx tg a w).2 = w ∧
      (lttng_add_ipc_ns_to_ctx tg a w).2.ctx.fields.length = w.ctx.fields.length ∧
      ctx_names (lttng_add_ipc_ns_to_ctx tg a w).2 = ctx_names w) ∧
    ((lttng_add_ipc_ns_to_ctx tg a w).1 = 0 → a2.type_ok = true → a2.append_ok = true →
      (lttng_add_ipc_ns_to_ctx tg a w).2.ctx.fields = w.ctx.fields ++ [ipc_ns_field tg] ∧
      lttng_add_ipc_ns_to_ctx tg a2 (lttng_add_ipc_ns_to_ctx tg a w).2 =
        (-EEXIST, (lttng_add_ipc_ns_to_ctx tg a w).2)) := by
  refine ⟨lttng_add_ipc_ns_to_ctx_no_type tg a w, lttng_add_ipc_ns_to_ctx_no_slot tg a w,
    lttng_add_ipc_ns_to_ctx_exists tg a w, lttng_add_ipc_ns_to_ctx_no_name tg a w, ?_, ?_⟩
  · intro h
    have := lttng_add_ipc_ns_to_ctx_fail tg a w h
    exact ⟨this, by rw [this], by rw [this]⟩
  · intro h0 h1 h2
    have hok : lttng_add_ipc_ns_to_ctx tg a w =
        (0, { ctx := { fields := w.ctx.fields ++ [ipc_ns_field tg],
                       updates := w.ctx.updates + 1 },
              live_types := w.live_types + 1 }) := by
      cases h1 : a.type_ok
      · rw [lttng_add_ipc_ns_to_ctx_no_type tg a w h1] at h0
        simp [ENOMEM, EEXIST] at h0
      · cases h2 : a.append_ok
        · rw [lttng_add_ipc_ns_to_ctx_no_slot tg a w h1 h2] at h0
          simp [ENOMEM, EEXIST] at h0
        · cases h3 : lttng_find_context w.ctx "ipc_ns"
          · cases h4 : a.strdup_ok
            · rw [lttng_add_ipc_ns_to_ctx_no_name tg a w h1 h2 h3 h4] at h0
              simp [ENOMEM, EEXIST] at h0
            · exact lttng_add_ipc_ns_to_ctx_ok tg a w h1 h2 h3 h4
          · rw [lttng_add_ipc_ns_to_ctx_exists tg a w h1 h2 h3] at h0
            simp [ENOMEM, EEXIST] at h0
    rw [hok]
    exact ⟨rfl, lttng_add_ipc_ns_to_ctx_exists tg a2 _ h1 h2
      (lttng_find_context_ipc_ns_field tg w)⟩

theorem lttng_add_ipc_ns_to_ctx_rollback_witness :
    lttng_add_ipc_ns_to_ctx x86_64 alloc_ok ctx_vpid =
      (0, { ctx := { fields := [vpid_field, ipc_ns_field x86_64], updates := 2 },
            live_types := 2 }) ∧
    lttng_add_ipc_ns_to_ctx x86_64 alloc_ok (lttng_add_ipc_ns_to_ctx x86_64 alloc_ok ctx_vpid).2 =
      (-17, (lttng_add_ipc_ns_to_ctx x86_64 alloc_ok ctx_vpid).2) ∧
    lttng_add_ipc_ns_to_ctx x86_64 { alloc_ok with strdup_ok := false } ctx_vpid =
      (-12, ctx_vpid) ∧
    ((lttng_add_ipc_ns_to_ctx x86_64 alloc_ok ctx_vpid).2.ctx.fields =
        ctx_vpid.ctx.fields ++ [ipc_ns_field x86_64] ∧
      lttng_add_ipc_ns_to_ctx x86_64 alloc_ok (lttng_add_ipc_ns_to_ctx x86_64 alloc_ok ctx_vpid).2 =
        (-EEXIST, (lttng_add_ipc_ns_to_ctx x86_64 alloc_ok ctx_vpid).2)) :=
  ⟨by decide, by decide, by decide,
    (lttng_add_ipc_ns_to_ctx_rollback x86_64 alloc_ok alloc_ok ctx_vpid).2.2.2.2.2
      (by decide) rfl rfl⟩

/-! ### Claims on the `fork` and `execve` wrappers -/

/-- C7: when the genuine `fork` cannot be resolved (no cached pointer and
`dlsym` answers `NULL`) the wrapper returns -1 and calls neither the genuine
`fork` nor `ust_fork`; when it is resolved the wrapper calls it exactly once and
returns its return value, and it calls `ust_fork`, after the genuine call and
as its last call, exactly once when that value is 0 and not at all otherwise. -/
theorem fork_wrapper (dlsym_fork : FnPtr) (genuine : Int) (s : InterforkState) :
    (resolved s.fork_plibc_func dlsym_fork = 0 →
      fork dlsym_fork genuine s =
        (-1, { s with fork_plibc_func := 0 },
          [Call.dlsym "fork", Call.fprintf_stderr "libcwrap: unable to find fork\n"])) ∧
    (resolved s.fork_plibc_func dlsym_fork ≠ 0 → genuine = 0 →
      fork dlsym_fork genuine s =
        (0, { s with fork_plibc_func := resolved s.fork_plibc_func dlsym_fork },
          lookup_calls s.fork_plibc_func "fork" ++
            [Call.libc_fork (resolved s.fork_plibc_func dlsym_fork), Call.ust_fork])) ∧
    (resolved s.fork_plibc_func dlsym_fork ≠ 0 → genuine ≠ 0 →
      fork dlsym_fork genuine s =
        (genuine, { s with fork_plibc_func := resolved s.fork_plibc_func dlsym_fork },
          lookup_calls s.fork_plibc_func "fork" ++
            [Call.libc_fork (resolved s.fork_plibc_func dlsym_fork)])) ∧
    (fork dlsym_fork genuine s).2.2.count Call.ust_fork =
      (if resolved s.fork_plibc_func dlsym_fork ≠ 0 ∧ genuine = 0 then 1 else 0) ∧
    (fork dlsym_fork genuine s).2.2.count
        (Call.libc_fork (resolved s.fork_plibc_func dlsym_fork)) =
      (if resolved s.fork_plibc_func dlsym_fork ≠ 0 then 1 else 0) := by
  by_cases hc : s.fork_plibc_func = 0
  · by_cases hd : dlsym_fork = 0
    · simp [fork, resolved, lookup_calls, hc, hd]
    · by_cases hg : genuine = 0
      · simp [fork, resolved, lookup_calls, hc, hd, hg]
      · simp [fork, resolved, lookup_calls, hc, hd, hg]
  · by_cases hg : genuine = 0
    · simp [fork, resolved, lookup_calls, hc, hg]
    · simp [fork, resolved, lookup_calls, hc, hg]

theorem fork_wrapper_witness :
    fork 0 0 interfork_init =
      (-1, interfork_init,
        [Call.dlsym "fork", Call.fprintf_stderr "libcwrap: unable to find fork\n"]) ∧
    fork 4096 0 interfork_init =
      (0, { fork_plibc_func := 4096, execve_plibc_func := 0 },
        [Call.dlsym "fork", Call.libc_fork 4096, Call.ust_fork]) ∧
    fork 0 1235 { fork_plibc_func := 4096, execve_plibc_func := 0 } =
      (1235, { fork_plibc_func := 4096, execve_plibc_func := 0 }, [Call.libc_fork 4096]) ∧
    fork 0 (-1) { fork_plibc_func := 4096, execve_plibc_func := 0 } =
      (-1, { fork_plibc_func := 4096, execve_plibc_func := 0 }, [Call.libc_fork 4096]) ∧
    (fork 4096 0 interfork_init).2.2.count Call.ust_fork =
      (if resolved interfork_init.fork_plibc_func 4096 ≠ 0 ∧ (0 : Int) = 0 then 1 else 0) :=
  ⟨by decide, by decide, by decide, by decide,
    (fork_wrapper 4096 0 interfork_init).2.2.2.1⟩

/-- C8: in every call of the wrapper `execve` that calls the genuine `execve`,
the calls made are the lookup (a `dlsym` or nothing), then `ust_potential_exec`,
then the genuine `execve`, last, with the wrapper's own `filename`, `argv` and
`envp`: the notification is made exactly once and before the genuine call. What
the wrapper returns is what the genuine call returns; it does not return when
the genuine call does not. -/
theorem execve_wrapper (dlsym_execve : FnPtr) (genuine : Option Int) (filename : String)
    (argv envp : List String) (s : InterforkState)
    (h : ∃ c ∈ (execve dlsym_execve genuine filename argv envp s).2.2,
      c.is_libc_execve = true) :
    resolved s.execve_plibc_func dlsym_execve ≠ 0 ∧
    (execve dlsym_execve genuine filename argv envp s).2.2 =
      lookup_calls s.execve_plibc_func "execve" ++
        [Call.ust_potential_exec,
          Call.libc_execve (resolved s.execve_plibc_func dlsym_execve) filename argv envp] ∧
    (execve dlsym_execve genuine filename argv envp s).2.2.count Call.ust_potential_exec = 1 ∧
    ((execve dlsym_execve genuine filename argv envp s).2.2.filter Call.is_libc_execve).length
      = 1 ∧
    (execve dlsym_execve genuine filename argv envp s).1 = genuine := by
  by_cases hc : s.execve_plibc_func = 0
  · by_cases hd : dlsym_execve = 0
    · simp [execve, hc, hd, Call.is_libc_execve] at h
    · simp [execve, resolved, lookup_calls, hc, hd, Call.is_libc_execve]
  · simp [execve, resolved, lookup_calls, hc, Call.is_libc_execve]

theorem execve_wrapper_witness :
    (∃ c ∈ (execve 8192 (some (-1)) "/bin/nonexistent" ["x", "-v"] ["HOME=/"]
        interfork_init).2.2, c.is_libc_execve = true) ∧
    execve 8192 (some (-1)) "/bin/nonexistent" ["x", "-v"] ["HOME=/"] interfork_init =
      (some (-1), { fork_plibc_func := 0, execve_plibc_func := 8192 },
        [Call.dlsym "execve", Call.ust_potential_exec,
          Call.libc_execve 8192 "/bin/nonexistent" ["x", "-v"] ["HOME=/"]]) ∧
    (execve 8192 (some (-1)) "/bin/nonexistent" ["x", "-v"] ["HOME=/"]
      interfork_init).2.2.count Call.ust_potential_exec = 1 :=
  ⟨⟨Call.libc_execve 8192 "/bin/nonexistent" ["x", "-v"] ["HOME=/"], by decide, rfl⟩,
    by decide,
    (execve_wrapper 8192 (some (-1)) "/bin/nonexistent" ["x", "-v"] ["HOME=/"] interfork_init
      ⟨Call.libc_execve 8192 "/bin/nonexistent" ["x", "-v"] ["HOME=/"], by decide, rfl⟩).2.2.1⟩

/-! ### Lemmas on `lttng_ust_setustprocname` -/

theorem strlen_append_nul (pre post : List Char) (h : NUL ∉ pre) :
    strlen (pre ++ NUL :: post) = some pre.length := by
  induction pre with
  | nil => simp [strlen]
  | cons a pre ih =>
    have ha : a ≠ NUL := fun e => h (by simp [e])
    have hp : NUL ∉ pre := fun e => h (by simp [e])
    simp [strlen, ha, ih hp]

theorem strnlen_append_nul (pre post : List Char) (h : NUL ∉ pre) :
    ∀ maxlen, pre.length < maxlen → strnlen (pre ++ NUL :: post) maxlen = some pre.length := by
  induction pre with
  | nil => intro maxlen hm; cases maxlen with
    | zero => omega
    | succ m => simp [strnlen]
  | cons a pre ih =>
    intro maxlen hm
    have ha : a ≠ NUL := fun e => h (by simp [e])
    have hp : NUL ∉ pre := fun e => h (by simp [e])
    cases maxlen with
    | zero => simp at hm
    | succ m =>
      simp only [List.length_cons] at hm
      simp [strnlen, ha, ih hp m (by omega)]

theorem c_string_append_nul (pre post : List Char) (h : NUL ∉ pre) :
    c_string (pre ++ NUL :: post) = pre := by
  induction pre with
  | nil => simp [c_string]
  | cons a pre ih =>
    have ha : a ≠ NUL := fun e => h (by simp [e])
    have hp : NUL ∉ pre := fun e => h (by simp [e])
    have := ih hp
    simp only [c_string] at this ⊢
    rw [List.cons_append, List.takeWhile_cons, this]
    simp [ha]


theorem to_int_small (x : Int) (h0 : 0 ≤ x) (h1 : x < 2 ^ 31) : to_int x = x := by
  unfold to_int
  rw [Int.emod_eq_of_lt (by omega) (by omega)]
  omega

theorem to_size_t_small (x : Int) (h0 : 0 ≤ x) (h1 : x < 2 ^ 64) : to_size_t x = x := by
  unfold to_size_t
  exact Int.emod_eq_of_lt h0 h1

/-! ### Claim on `lttng_ust_setustprocname` -/

/-- C10: with `LTTNG_UST_ABI_PROCNAME_LEN` at least 5 (and an `int`), when the
get-name step succeeds and leaves in the buffer a NUL-terminated name `cur` of
length `n`, which is at most `LTTNG_UST_ABI_PROCNAME_LEN - 1`,
`lttng_ust_setustprocname` stays inside the buffer, the length check of
`lttng_pthread_setname_np` passes, and the name handed to the set-name step is
the first `min n (LTTNG_UST_ABI_PROCNAME_LEN - 5)` characters of `cur` followed
by "-ust", of length at most `LTTNG_UST_ABI_PROCNAME_LEN - 1`; the return value
is the one of the set-name step. -/
theorem setustprocname_appends (LEN : Nat) (cur rest : List Char) (setname_ret : Int)
    (hL : 5 ≤ LEN) (hL2 : LEN < 2 ^ 31)
    (hnul : NUL ∉ cur) (hlen : (cur ++ NUL :: rest).length = LEN) :
    cur.length ≤ LEN - 1 ∧
    lttng_ust_setustprocname LEN 0 (cur ++ NUL :: rest) setname_ret =
      some { ret := setname_ret,
             name_set := some (cur.take (min cur.length (LEN - 5)) ++
               LTTNG_UST_PROCNAME_SUFFIX.data) } ∧
    (cur.take (min cur.length (LEN - 5)) ++ LTTNG_UST_PROCNAME_SUFFIX.data).length ≤ LEN - 1 := by
  have hsl : LTTNG_UST_PROCNAME_SUFFIX.length = 4 := by decide
  have hsd : LTTNG_UST_PROCNAME_SUFFIX.data = ['-', 'u', 's', 't'] := by decide
  have hcl : cur.length + (rest.length + 1) = LEN := by simpa using hlen
  have hlimit : to_int (to_size_t ((LEN : Int) - LTTNG_UST_PROCNAME_SUFFIX.length - 1)) =
      ((LEN - 5 : Nat) : Int) := by
    rw [hsl, to_size_t_small _ (by omega) (by omega), to_int_small _ (by omega) (by omega)]
    omega
  have hn : to_int (cur.length : Int) = (cur.length : Int) :=
    to_int_small _ (by omega) (by omega)
  set m := min cur.length (LEN - 5) with hm
  have hlen' : (if to_int (cur.length : Int) >
      to_int (to_size_t ((LEN : Int) - LTTNG_UST_PROCNAME_SUFFIX.length - 1)) then
      to_int (to_size_t ((LEN : Int) - LTTNG_UST_PROCNAME_SUFFIX.length - 1))
      else to_int (cur.length : Int)) = (m : Int) := by
    rw [hlimit, hn]
    split_ifs with h <;> omega
  have hmcur : m ≤ cur.length := min_le_left _ _
  have hm5 : m + 5 ≤ LEN := by omega
  have htake : (cur ++ NUL :: rest).take m = cur.take m := by
    rw [List.take_append_of_le_length hmcur]
  have hnt : NUL ∉ cur.take m ++ ['-', 'u', 's', 't'] := by
    intro hmem
    rcases List.mem_append.mp hmem with h1 | h2
    · exact hnul (List.mem_of_mem_take h1)
    · revert h2; decide
  have hsp : sprintf (cur ++ NUL :: rest) (m : Int) LTTNG_UST_PROCNAME_SUFFIX =
      some (4, (cur.take m ++ ['-', 'u', 's', 't']) ++
        NUL :: (cur ++ NUL :: rest).drop (m + 4 + 1)) := by
    unfold sprintf
    rw [if_pos ⟨by omega, by rw [hsl, Int.toNat_ofNat, List.length_append, List.length_cons]; omega⟩]
    rw [hsl, hsd, Int.toNat_ofNat, htake]
    simp only [List.append_assoc, List.singleton_append, Nat.cast_ofNat]
  have hset : lttng_pthread_setname_np LEN setname_ret
      ((cur.take m ++ ['-', 'u', 's', 't']) ++ NUL :: (cur ++ NUL :: rest).drop (m + 4 + 1)) =
      some { ret := setname_ret, name_set := some (cur.take m ++ ['-', 'u', 's', 't']) } := by
    have hl : (cur.take m ++ ['-', 'u', 's', 't']).length = m + 4 := by
      rw [List.length_append, List.length_take, Nat.min_eq_left hmcur]
      rfl
    unfold lttng_pthread_setname_np
    rw [strnlen_append_nul _ _ hnt LEN (by rw [hl]; omega), c_string_append_nul _ _ hnt]
    have hge : ¬ (cur.take m ++ ['-', 'u', 's', 't']).length ≥ LEN := by rw [hl]; omega
    exact if_neg hge
  have h4 : to_size_t 4 = 4 := to_size_t_small 4 (by norm_num) (by norm_num)
  refine ⟨by omega, ?_, ?_⟩
  · unfold lttng_ust_setustprocname
    rw [if_neg (by simp), strlen_append_nul cur rest hnul, Option.some_bind]
    show (sprintf (cur ++ NUL :: rest)
        (if to_int (cur.length : Int) >
          to_int (to_size_t ((LEN : Int) - LTTNG_UST_PROCNAME_SUFFIX.length - 1)) then
          to_int (to_size_t ((LEN : Int) - LTTNG_UST_PROCNAME_SUFFIX.length - 1))
          else to_int (cur.length : Int)) LTTNG_UST_PROCNAME_SUFFIX).bind _ = _
    rw [hlen', hsp, Option.some_bind]
    show (if to_size_t 4 ≠ (LTTNG_UST_PROCNAME_SUFFIX.length : Int) then _ else _) = _
    rw [hsl, if_neg (by rw [h4]; exact fun h => h rfl), hset, hsd]
  · rw [hsd, List.length_append, List.length_take, Nat.min_eq_left hmcur]
    show m + 4 ≤ LEN - 1
    omega

theorem setustprocname_appends_witness :
    (5 ≤ 16 ∧ 16 < 2 ^ 31 ∧ NUL ∉ "fifteen_chars_x".data ∧
      ("fifteen_chars_x".data ++ NUL :: []).length = 16) ∧
    ("fifteen_chars_x".data.length ≤ 16 - 1 ∧
      lttng_ust_setustprocname 16 0 ("fifteen_chars_x".data ++ NUL :: []) 0 =
        some { ret := 0,
               name_set := some ("fifteen_chars_x".data.take
                 (min "fifteen_chars_x".data.length (16 - 5)) ++
                 LTTNG_UST_PROCNAME_SUFFIX.data) } ∧
      ("fifteen_chars_x".data.take (min "fifteen_chars_x".data.length (16 - 5)) ++
        LTTNG_UST_PROCNAME_SUFFIX.data).length ≤ 16 - 1) ∧
    "fifteen_chars_x".data.take (min "fifteen_chars_x".data.length (16 - 5)) ++
      LTTNG_UST_PROCNAME_SUFFIX.data = "fifteen_cha-ust".data :=
  ⟨⟨by decide, by decide, by decide, by decide⟩,
    setustprocname_appends 16 "fifteen_chars_x".data [] 0 (by decide) (by decide) (by decide)
      (by decide),
    by decide⟩

end LttngUst
